import Mathlib

/-!
Shallow embedding of `src/data_analyzer/dataset.py` (the `Dataset` class of the
chdre/data-analyzer repository) and proofs about it.

Conventions of the embedding:
* numpy arrays of target data become `YData` (a single 1-D curve of rationals
  or a 2-D list of curves); feature arrays become `List (List ℚ)`.
* Python exceptions become the `PyErr` type.  Where the code raises through the
  error taxonomy the spec names (`ValidationError`, `NoPeakFoundError`) the
  matching constructor is used; accidental interpreter errors visible in the
  source (reading an unassigned local, `len` of an `int`, a missing attribute,
  an undefined global) get their own constructors so that divergences between
  the spec's taxonomy and the code's actual failure are visible.
* methods that mutate `self` return the post-call `Dataset` state together with
  the result or error, because a Python exception does not roll back
  assignments made earlier in the method body.
* the external Savitzky-Golay data transform (`scipy.signal.savgol_filter`) is
  a parameter `filt : List ℚ → ℕ → ℕ → List ℚ` of the operations that use it;
  its documented precondition (polyorder strictly below window_length) is
  modelled explicitly.
-/

/-- Python-level errors of the embedded code.  `validationError` is the
spec's `ValidationError` (the `raise InputError` site at construction and the
external filter's polyorder check); `noPeakFound` is the spec's
`NoPeakFoundError` (the `IndexError` of `find_peaks(...)[0][0]` on an empty
peak array); the remaining constructors are interpreter errors the source
actually produces (unbound locals, `len` of an `int`, missing `self.ymax`,
the undefined global `ynew_max`, numpy shape errors, missing dict keys). -/
inductive PyErr where
  | validationError
  | noPeakFound
  | keyError
  | typeError
  | indexError
  | attributeError
  | unboundLocal
  | nameError
  | valueError
deriving DecidableEq

/-- Decidable equality of `Except` results, so that concrete runs of the
embedded operations can be checked by `decide`. -/
instance {ε α : Type} [DecidableEq ε] [DecidableEq α] :
    DecidableEq (Except ε α) := fun a b =>
  match a, b with
  | .error e1, .error e2 =>
    if h : e1 = e2 then .isTrue (by rw [h]) else .isFalse (by simp [h])
  | .ok v1, .ok v2 =>
    if h : v1 = v2 then .isTrue (by rw [h]) else .isFalse (by simp [h])
  | .error _, .ok _ => .isFalse (by simp)
  | .ok _, .error _ => .isFalse (by simp)

/-- Target data `y`: either a single curve (1-D ndarray) or a collection of
curves (2-D ndarray), as in the source's shape-dependent branches. -/
inductive YData where
  | one (l : List ℚ)
  | two (rows : List (List ℚ))
deriving DecidableEq

/-- Python `len(y)` on an ndarray: number of samples of a 1-D array, number of
rows of a 2-D array. -/
def yLen : YData → ℕ
  | .one l => l.length
  | .two rows => rows.length

/-- YData with at least one curve: a 1-D array is itself one curve; a 2-D
array must have at least one row. -/
def hasCurve : YData → Prop
  | .one _ => True
  | .two rows => rows ≠ []

/-- Shapes agree: same arity, same number of curves and samples per curve. -/
def sameShape : YData → YData → Prop
  | .one l1, .one l2 => l1.length = l2.length
  | .two r1, .two r2 =>
      r1.length = r2.length ∧ ∀ i, (r1.getD i []).length = (r2.getD i []).length
  | _, _ => False

/-- `np.concatenate((a, b), axis=0)`: defined when the arities agree, a numpy
`ValueError` otherwise. -/
def concatY : YData → YData → Except PyErr YData
  | .one l1, .one l2 => .ok (.one (l1 ++ l2))
  | .two r1, .two r2 => .ok (.two (r1 ++ r2))
  | _, _ => .error .valueError

/-- Element read with numpy's value semantics for the indices the code
produces (always in range); out of range falls back to 0. -/
def getq (x : List ℚ) (i : ℕ) : ℚ := x.getD i 0

/-- Maximum entry of a list, `0` for the empty list (the code never takes it
on an empty list without first raising). -/
def listMax (l : List ℚ) : ℚ := l.foldl max (l.headD 0)

/-- The `Dataset` object's fields: features `x`, targets `y`, the derived
`ymax` (absent until something assigns it, hence `Option`), and the two
lifecycle flags. -/
structure Dataset where
  x : List (List ℚ)
  y : YData
  ymax : Option (List ℚ)
  smoothed : Bool
  maximum_found : Bool
deriving DecidableEq

/-- Translates `Dataset.__init__`: raises when `len(x) != len(y)` (the
`raise InputError` site, the spec's `ValidationError`), otherwise stores `x`
and `y` and clears both flags; `ymax` stays undefined. -/
def Dataset.init (x : List (List ℚ)) (y : YData) : Except PyErr Dataset :=
  if x.length = yLen y then
    .ok { x := x, y := y, ymax := none, smoothed := false, maximum_found := false }
  else
    .error .validationError

/-- Translates `Dataset.get_data`: returns the stored pair. -/
def Dataset.get_data (d : Dataset) : List (List ℚ) × YData := (d.x, d.y)

/-- Modelled from the spec: the external filter `scipy.signal.savgol_filter`.
The data transform itself is the parameter `filt`; the filter's documented
precondition — "polynomial_order must be strictly less than window_length;
violating this fails with ValidationError (the underlying filter is undefined
otherwise)" — is the only failure modelled. -/
def savgol_filter (filt : List ℚ → ℕ → ℕ → List ℚ) (l : List ℚ)
    (window_length polyorder : ℕ) : Except PyErr (List ℚ) :=
  if window_length ≤ polyorder then .error .validationError
  else .ok (filt l window_length polyorder)

/-- Loop of `Dataset.savgol` over the rows of a 2-D `y`: each row is
overwritten with its filtered version (`ynew[i] = savgol_filter(...)` where
`ynew = y`).  The only modelled filter failure (the polyorder check) does not
depend on the row, so a failing loop fails on its first row, before any row of
the caller's array has been rewritten. -/
def filterRows (filt : List ℚ → ℕ → ℕ → List ℚ) (window_length polyorder : ℕ) :
    List (List ℚ) → Except PyErr (List (List ℚ))
  | [] => .ok []
  | r :: rs =>
    match savgol_filter filt r window_length polyorder with
    | .error e => .error e
    | .ok r2 =>
      match filterRows filt window_length polyorder rs with
      | .error e => .error e
      | .ok rest => .ok (r2 :: rest)

/-- Translates the static method `Dataset.savgol`.  The payload of a
successful call is the pair (contents of the caller's array after the call,
returned array): the source sets `ynew = y` (an alias, the comment in the
source says "Dummy in case y = self.y") and, on the 2-D path, assigns every
`ynew[i]` in place, so caller's array and return value are the same filtered
array; on the 1-D path `ynew` is rebound to a fresh filtered array and the
caller's array is untouched.  On an even `window_length` the source warns and
then executes `window += 1` — but the local is named `window_length`, so
`window` is unassigned and the call dies with `UnboundLocalError`. -/
def Dataset.savgol (filt : List ℚ → ℕ → ℕ → List ℚ) (y : YData)
    (window_length : ℕ) (polyorder : ℕ := 3) : Except PyErr (YData × YData) :=
  if window_length % 2 = 0 then .error .unboundLocal
  else
    match y with
    | .two rows =>
      match filterRows filt window_length polyorder rows with
      | .error e => .error e
      | .ok rows2 => .ok (.two rows2, .two rows2)
    | .one l =>
      match savgol_filter filt l window_length polyorder with
      | .error e => .error e
      | .ok l2 => .ok (.one l, .one l2)

/-- Keyword arguments of `smooth_y` as the source reads them: it looks up
the key "window_length" (a `KeyError` when absent) and reads nothing
else; a caller-supplied polynomial order, modelled by the second field, is
never read. -/
structure SmoothKwargs where
  window_length : Option ℕ := none
  polyorder : Option ℕ := none
deriving DecidableEq

/-- Translates `Dataset.smooth_y`: builds the one-entry smoother table, reads
`window_length` from the kwargs, dispatches on the `smoothing` string, and
calls `savgol` with only `y` and `window_length` — so `polyorder` always
takes its default 3.  On success it sets `smoothed := true` on the owning
dataset; on any failure the dataset is unchanged. -/
def Dataset.smooth_y (filt : List ℚ → ℕ → ℕ → List ℚ) (d : Dataset) (y : YData)
    (smoothing : String) (kwargs : SmoothKwargs) :
    Dataset × Except PyErr (YData × YData) :=
  match kwargs.window_length with
  | none => (d, .error .keyError)
  | some wl =>
    if smoothing = "savgol" then
      match Dataset.savgol filt y wl 3 with
      | .error e => (d, .error e)
      | .ok r => ({ d with smoothed := true }, .ok r)
    else (d, .error .keyError)

/-- Modelled from the spec: the plateau of a candidate local maximum in the
external peak-detection pass (`scipy.signal.find_peaks`).  For a plateau start
`l` (a sample strictly above its left neighbour) it finds the matching end
`r`: every sample in `l..r` equals the sample at `l` and the sample after `r`
is strictly lower.  `none` when the run never drops (no peak there). -/
def plateauEnd (x : List ℚ) (l : ℕ) : Option ℕ :=
  (List.range x.length).find? (fun r =>
    decide (l ≤ r) && decide (r + 1 < x.length) &&
    ((List.range (r - l)).all (fun k => getq x (l + 1 + k) == getq x l)) &&
    decide (getq x (r + 1) < getq x l))

/-- Modelled from the spec: the local-maxima pass of
`scipy.signal.find_peaks` — indices of samples strictly above both
neighbours, a flat plateau counting once at its midpoint; boundary samples
are never peaks.  A constant curve has no local maxima. -/
def localMaxima (x : List ℚ) : List ℕ :=
  (List.range x.length).filterMap (fun l =>
    if 0 < l ∧ getq x (l - 1) < getq x l then
      (plateauEnd x l).map (fun r => (l + r) / 2)
    else none)

/-- Modelled from the spec: the prominence of a candidate peak — the spec's
"minimum drop required on both sides of a candidate peak relative to its
neighborhood".  Walk outward from the peak while samples do not exceed it,
take the lowest sample of each side, and measure the drop to the higher of
the two. -/
def prominenceOf (x : List ℚ) (i : ℕ) : ℚ :=
  let xi := getq x i
  let lmin := ((x.take i).reverse.takeWhile (fun v => v ≤ xi)).foldl min xi
  let rmin := ((x.drop (i + 1)).takeWhile (fun v => v ≤ xi)).foldl min xi
  xi - max lmin rmin

/-- Insertion step for ordering candidate peaks by decreasing sample value
(ties broken towards the larger index, as the external pass iterates its
priority order from the top). -/
def insertByVal (x : List ℚ) (p : ℕ) : List ℕ → List ℕ
  | [] => [p]
  | q :: t =>
    if getq x q < getq x p ∨ (getq x q = getq x p ∧ q ≤ p) then p :: q :: t
    else q :: insertByVal x p t

/-- Candidate peaks sorted by decreasing sample value. -/
def sortByValDesc (x : List ℚ) : List ℕ → List ℕ
  | [] => []
  | p :: t => insertByVal x p (sortByValDesc x t)

/-- Modelled from the spec: the distance condition of the external pass —
"minimum index separation between candidate peaks within a curve".  Peaks are
visited from highest to lowest; a peak survives when every higher-priority
surviving peak is at least `distance` indices away.  The survivors are
reported in index order. -/
def selectByDistance (x : List ℚ) (peaks : List ℕ) (distance : ℕ) : List ℕ :=
  let keep := (sortByValDesc x peaks).foldl
    (fun keep p =>
      if keep.all (fun q => decide (distance ≤ (max p q - min p q))) then p :: keep
      else keep) []
  peaks.filter (fun p => keep.contains p)

/-- Modelled from the spec: `scipy.signal.find_peaks` — "local maxima
satisfying the distance/height/prominence thresholds", in increasing index
order: local maxima, then the height threshold, then the distance condition,
then the prominence threshold. -/
def findPeaks (x : List ℚ) (distance : ℕ) (height : ℚ) (prominence : ℚ) :
    List ℕ :=
  let peaks := localMaxima x
  let peaks := peaks.filter (fun i => height ≤ getq x i)
  let peaks := selectByDistance x peaks distance
  peaks.filter (fun i => prominence ≤ prominenceOf x i)

/-- Keyword arguments of `find_maximum` as the source reads them: optional
`distance` (default 500), `prominence` (default 0.025) and `height`.  The
source sets its local `height_flag` only in the branch where `height` is
absent, so a supplied `height` leaves `height_flag` unassigned. -/
structure FindMaxKwargs where
  distance : Option ℕ := none
  prominence : Option ℚ := none
  height : Option ℚ := none
deriving DecidableEq

/-- Result of `find_maximum`: a scalar for a single curve, a vector of one
scalar per curve for a collection. -/
inductive MaxResult where
  | scalar (v : ℚ)
  | vec (l : List ℚ)
deriving DecidableEq

/-- Row `i` of the argument `y` as `y[i, ...]` reads it inside the 2-D loop of
`find_maximum`: a row of a 2-D array, an `IndexError` when a 1-D array is
indexed with two subscripts. -/
def curveAt (y : YData) (i : ℕ) : Except PyErr (List ℚ) :=
  match y with
  | .two rows => .ok (rows.getD i [])
  | .one _ => .error .indexError

/-- Body of one iteration of the 2-D loop of `find_maximum`, in source
order: read `height_flag` (an `UnboundLocalError` when `height` was supplied,
since the source never assigns the flag on that path); when the flag is set,
recompute `height` as half of this curve's own maximum (`np.argmax` on an
empty row is a `ValueError`); run the peak detection; take
`find_peaks(...)[0][0]` — on an empty peak array this is the spec's
`NoPeakFoundError`; return the sample at the first peak. -/
def fmStep (y : YData) (distance : ℕ) (prominence : ℚ)
    (height_flag : Option Bool) (height0 : Option ℚ) (i : ℕ) :
    Except PyErr ℚ := do
  let height ←
    match height_flag with
    | none => Except.error PyErr.unboundLocal
    | some flag =>
      if flag then
        match curveAt y i with
        | .error e => Except.error e
        | .ok [] => Except.error PyErr.valueError
        | .ok (a :: t) => Except.ok (listMax (a :: t) / 2)
      else
        match height0 with
        | none => Except.error PyErr.unboundLocal
        | some h => Except.ok h
  let c ← curveAt y i
  match findPeaks c distance height prominence with
  | [] => Except.error PyErr.noPeakFound
  | a :: _ => Except.ok (getq c a)

/-- Loop of `find_maximum` over curve indices: the first failing curve aborts
the whole call, earlier results are discarded (the source wrote them into a
local `ymax` that is never returned on failure). -/
def fmLoop (f : ℕ → Except PyErr ℚ) : List ℕ → Except PyErr (List ℚ)
  | [] => .ok []
  | i :: is =>
    match f i with
    | .error e => .error e
    | .ok v =>
      match fmLoop f is with
      | .error e => .error e
      | .ok vs => .ok (v :: vs)

/-- Translates `Dataset.find_maximum`.  Defaults: `distance` 500,
`prominence` 0.025; `height_flag` is assigned (to `True`) only when `height`
is absent from the kwargs.  The branch is taken on the shape of `self.y`, not
of the argument `y`, exactly as in the source.  On the 2-D path the loop runs
over `range(len(y))`; on the 1-D path the flag is read first, then the peak
search runs on the single curve (a 2-D argument would reach
`find_peaks` with a 2-D array, a `ValueError`).  Only a fully successful call
sets `maximum_found := true`; any failure leaves the dataset unchanged. -/
def Dataset.find_maximum (d : Dataset) (y : YData) (kwargs : FindMaxKwargs) :
    Dataset × Except PyErr MaxResult :=
  let distance := kwargs.distance.getD 500
  let prominence := kwargs.prominence.getD (1 / 40)
  let height_flag : Option Bool :=
    match kwargs.height with
    | some _ => none
    | none => some true
  let height0 : Option ℚ := kwargs.height
  match d.y with
  | .two _ =>
    match fmLoop (fmStep y distance prominence height_flag height0)
        (List.range (yLen y)) with
    | .error e => (d, .error e)
    | .ok l => ({ d with maximum_found := true }, .ok (.vec l))
  | .one _ =>
    match height_flag with
    | none => (d, .error .unboundLocal)
    | some flag =>
      match y with
      | .two _ => (d, .error .valueError)
      | .one l =>
        let r : Except PyErr ℚ :=
          if flag then
            match l with
            | [] => .error .valueError
            | a :: t =>
              match findPeaks (a :: t) distance (listMax (a :: t) / 2) prominence with
              | [] => .error .noPeakFound
              | p :: _ => .ok (getq (a :: t) p)
          else
            match height0 with
            | none => .error .unboundLocal
            | some h =>
              match findPeaks l distance h prominence with
              | [] => .error .noPeakFound
              | p :: _ => .ok (getq l p)
        match r with
        | .error e => (d, .error e)
        | .ok v => ({ d with maximum_found := true }, .ok (.scalar v))

/-- Translates `Dataset.extend_data` (array arguments; the path-loading
variants are the excluded storage collaborator).  The result pairs the
post-call dataset with the raised error, if any, because the source mutates
`self` field by field and an exception does not undo earlier assignments:

* with `features`, `self.x` is extended first;
* with `targets` and a non-`None` `ymax` argument, the source concatenates
  `self.ymax` with `targets` (the curves, not the `ymax` argument) — an
  `AttributeError` when `self.ymax` was never assigned, a numpy `ValueError`
  when `targets` is 2-D;
* otherwise the new curves are smoothed when `self.smoothed` is set — but
  `self.smooth_y(ynew)` passes no `window_length`, a `KeyError` — and
  peak-extracted when `self.maximum_found` is set, then concatenated onto
  `self.y`; finally the source evaluates `len(targets.shape[0])`, `len` of an
  `int`, a `TypeError` — after `self.x` and `self.y` have already been
  extended.  No feature/target count validation exists anywhere in the
  method. -/
def Dataset.extend_data (filt : List ℚ → ℕ → ℕ → List ℚ) (d : Dataset)
    (features : Option (List (List ℚ))) (targets : Option YData)
    (ymax : Option (List ℚ)) : Dataset × Option PyErr :=
  let d1 :=
    match features with
    | none => d
    | some xnew => { d with x := d.x ++ xnew }
  match targets with
  | none => (d1, none)
  | some tgt =>
    match ymax with
    | some _ =>
      match d1.ymax with
      | none => (d1, some .attributeError)
      | some ym =>
        match tgt with
        | .one l => ({ d1 with ymax := some (ym ++ l) }, none)
        | .two _ => (d1, some .valueError)
    | none =>
      let step1 : Dataset × Except PyErr YData :=
        if d1.smoothed then
          match Dataset.smooth_y filt d1 tgt "savgol" {} with
          | (d2, .error e) => (d2, .error e)
          | (d2, .ok (_, ysm)) => (d2, .ok ysm)
        else (d1, .ok tgt)
      match step1 with
      | (d2, .error e) => (d2, some e)
      | (d2, .ok ynew) =>
        let step2 : Dataset × Except PyErr Unit :=
          if d2.maximum_found then
            match Dataset.find_maximum d2 ynew {} with
            | (d3, .error e) => (d3, .error e)
            | (d3, .ok _) => (d3, .ok ())
          else (d2, .ok ())
        match step2 with
        | (d3, .error e) => (d3, some e)
        | (d3, .ok _) =>
          match concatY d3.y ynew with
          | .error e => (d3, some e)
          | .ok ycat => ({ d3 with y := ycat }, some .typeError)

/-- Translates `Dataset.extend_ymax` (array argument).  The source binds the
argument to the local `ynew` but concatenates `self.ymax` with `ynew_max`, a
name that exists nowhere: evaluating the tuple reads `self.ymax` first (an
`AttributeError` when it was never assigned) and then dies with a `NameError`
on `ynew_max`.  Nothing is ever appended. -/
def Dataset.extend_ymax (d : Dataset) (ymax_new : List ℚ) :
    Dataset × Option PyErr :=
  match d.ymax with
  | none => (d, some .attributeError)
  | some _ => (d, some .nameError)

/-- When the filter precondition holds, the row loop of `savgol` rewrites
every row with its filtered version and fails on none. -/
theorem filterRows_ok (filt : List ℚ → ℕ → ℕ → List ℚ) (wl po : ℕ)
    (h : ¬ wl ≤ po) (rows : List (List ℚ)) :
    filterRows filt wl po rows = .ok (rows.map (fun r => filt r wl po)) := by
  induction rows with
  | nil => simp [filterRows]
  | cons r rs ih => simp [filterRows, savgol_filter, h, ih]

/-- Reading row `i` with a default commutes with a row-wise map, up to the
length of the default. -/
theorem getD_map_length (f : List ℚ → List ℚ)
    (hlen : ∀ l, (f l).length = l.length) (rows : List (List ℚ)) (i : ℕ) :
    ((rows.map f).getD i []).length = (rows.getD i []).length := by
  induction rows generalizing i with
  | nil => simp
  | cons r rs ih =>
    cases i with
    | zero => simp [hlen]
    | succ n => simpa using ih n

/-- When every iteration of the `find_maximum` loop either succeeds or fails
with the no-peak error, and at least one iteration fails, the loop fails with
the no-peak error. -/
theorem fmLoop_error_of (f : ℕ → Except PyErr ℚ) (is : List ℕ)
    (hall : ∀ i ∈ is, f i = .error .noPeakFound ∨ ∃ v, f i = .ok v)
    (hex : ∃ i ∈ is, f i = .error .noPeakFound) :
    fmLoop f is = .error .noPeakFound := by
  induction is with
  | nil => simp at hex
  | cons a t ih =>
    rcases hall a (List.mem_cons_self a t) with ha | ⟨v, hv⟩
    · simp [fmLoop, ha]
    · have hext : ∃ i ∈ t, f i = .error .noPeakFound := by
        rcases hex with ⟨i, hi, he⟩
        rcases List.mem_cons.mp hi with rfl | hit
        · rw [hv] at he; exact absurd he (by simp)
        · exact ⟨i, hit, he⟩
      have ht := ih (fun i hi => hall i (List.mem_cons_of_mem _ hi)) hext
      simp [fmLoop, hv, ht]

/-- One iteration of the 2-D loop with the adaptive-height flag set, on a
nonempty curve: the outcome is decided by the peak list of that curve at half
its own maximum. -/
theorem fmStep_two (rows : List (List ℚ)) (dist : ℕ) (prom : ℚ)
    (h0 : Option ℚ) (i : ℕ) (hne : rows.getD i [] ≠ []) :
    fmStep (.two rows) dist prom (some true) h0 i =
      (match findPeaks (rows.getD i []) dist (listMax (rows.getD i []) / 2) prom with
       | [] => .error .noPeakFound
       | a :: _ => .ok (getq (rows.getD i []) a)) := by
  rcases hr : rows.getD i [] with _ | ⟨a, t⟩
  · exact absurd hr hne
  · simp only [fmStep, curveAt, hr]
    rfl

/-- C2: construction raises the validation error exactly when
`len(x) != len(y)`; for every pair with equal lengths it succeeds, stores the
pair, clears both lifecycle flags, and `get_data` returns exactly `(x, y)`. -/
theorem C2_init_contract (x : List (List ℚ)) (y : YData) :
    (Dataset.init x y = .error .validationError ↔ x.length ≠ yLen y) ∧
    (x.length = yLen y →
      ∃ d, Dataset.init x y = .ok d ∧ d.x = x ∧ d.y = y ∧ d.smoothed = false ∧
        d.maximum_found = false ∧ d.get_data = (x, y)) := by
  by_cases h : x.length = yLen y <;>
    simp [Dataset.init, h, Dataset.get_data]

/-- C2 witness: a concrete equal-length pair constructs successfully with the
stored data returned by `get_data` and both flags cleared. -/
theorem C2_init_contract_witness :
    ∃ d, Dataset.init [[1], [2]] (.two [[5, 6], [7, 8]]) = .ok d ∧
      d.x = [[1], [2]] ∧ d.y = .two [[5, 6], [7, 8]] ∧ d.smoothed = false ∧
      d.maximum_found = false ∧ d.get_data = ([[1], [2]], .two [[5, 6], [7, 8]]) :=
  (C2_init_contract [[1], [2]] (.two [[5, 6], [7, 8]])).2 (by rfl)

/-- C7: for every even `window_length` the smoothing pass does not
auto-correct and continue — it dies reading the unassigned local `window`
(the source increments `window`, not `window_length`).  The claim that an
even window is corrected to the next odd value and processing continues is
the documented intent; this theorem records what the code does instead. -/
theorem C7_even_window_unbound_local (filt : List ℚ → ℕ → ℕ → List ℚ)
    (y : YData) (wl po : ℕ) (h : wl % 2 = 0) :
    Dataset.savgol filt y wl po = .error .unboundLocal := by
  simp [Dataset.savgol, h]

/-- C7 witness: window length 10 on a concrete curve raises instead of being
corrected to 11. -/
theorem C7_even_window_unbound_local_witness :
    Dataset.savgol (fun l _ _ => l) (.one [1, 2, 3]) 10 3 =
      .error .unboundLocal :=
  C7_even_window_unbound_local (fun l _ _ => l) (.one [1, 2, 3]) 10 3 (by rfl)

/-- C9: `extend_ymax` never appends anything: evaluating
`np.concatenate((self.ymax, ynew_max))` reads `self.ymax` (an
`AttributeError` when it was never assigned) and then the undefined name
`ynew_max` (a `NameError`), so every call fails and leaves the dataset
unchanged; in particular the claimed `len(ymax) <= len(x)` validation does
not exist. -/
theorem C9_extend_ymax_always_fails (d : Dataset) (l : List ℚ) :
    (Dataset.extend_ymax d l).1 = d ∧ (Dataset.extend_ymax d l).2 ≠ none := by
  cases h : d.ymax <;> simp [Dataset.extend_ymax, h]

/-- C9 witness: a concrete call fails and leaves the dataset unchanged. -/
theorem C9_extend_ymax_always_fails_witness :
    (Dataset.extend_ymax ⟨[[1]], .one [1], none, false, false⟩ [1]).1 =
      ⟨[[1]], .one [1], none, false, false⟩ ∧
    (Dataset.extend_ymax ⟨[[1]], .one [1], none, false, false⟩ [1]).2 ≠ none :=
  C9_extend_ymax_always_fails ⟨[[1]], .one [1], none, false, false⟩ [1]

/-- C10: `smooth_y` reads only `window_length` from its keyword arguments —
two kwarg sets that agree on `window_length` produce identical results
whatever polynomial order either carries — and the filter always runs with
the default polynomial order 3. -/
theorem C10_smooth_y_ignores_polyorder (filt : List ℚ → ℕ → ℕ → List ℚ)
    (d : Dataset) (y : YData) (wl : ℕ) (po1 po2 : Option ℕ) :
    Dataset.smooth_y filt d y "savgol" ⟨some wl, po1⟩ =
      Dataset.smooth_y filt d y "savgol" ⟨some wl, po2⟩ ∧
    Dataset.smooth_y filt d y "savgol" ⟨some wl, po1⟩ =
      (match Dataset.savgol filt y wl 3 with
       | .error e => (d, .error e)
       | .ok r => ({ d with smoothed := true }, .ok r)) := by
  exact ⟨rfl, rfl⟩

/-- C10 witness: a concrete call with a kwarg polynomial order 7 equals the
call with none, and runs the filter at polynomial order 3. -/
theorem C10_smooth_y_ignores_polyorder_witness :
    Dataset.smooth_y (fun l _ _ => l) ⟨[[1]], .one [1, 2], none, false, false⟩
        (.one [1, 2]) "savgol" ⟨some 5, some 7⟩ =
      Dataset.smooth_y (fun l _ _ => l) ⟨[[1]], .one [1, 2], none, false, false⟩
        (.one [1, 2]) "savgol" ⟨some 5, none⟩ ∧
    Dataset.smooth_y (fun l _ _ => l) ⟨[[1]], .one [1, 2], none, false, false⟩
        (.one [1, 2]) "savgol" ⟨some 5, some 7⟩ =
      (match Dataset.savgol (fun l _ _ => l) (.one [1, 2]) 5 3 with
       | .error e => (⟨[[1]], .one [1, 2], none, false, false⟩, .error e)
       | .ok r => (⟨[[1]], .one [1, 2], none, true, false⟩, .ok r)) :=
  C10_smooth_y_ignores_polyorder (fun l _ _ => l)
    ⟨[[1]], .one [1, 2], none, false, false⟩ (.one [1, 2]) 5 (some 7) none

/-- C4: `extend_data` is not atomic: on a fresh two-curve dataset, extending
with one feature row and one target curve appends to both `x` and `y` and
then raises (`len` of an `int` at the `len(targets.shape[0])` check), leaving
the dataset mutated on failure. -/
theorem C4_extend_data_partial_mutation :
    Dataset.extend_data (fun l _ _ => l)
        ⟨[[1], [2]], .two [[1, 2], [3, 4]], none, false, false⟩
        (some [[3]]) (some (.two [[5, 6]])) none =
      (⟨[[1], [2], [3]], .two [[1, 2], [3, 4], [5, 6]], none, false, false⟩,
        some .typeError) ∧
    (⟨[[1], [2], [3]], .two [[1, 2], [3, 4], [5, 6]], none, false, false⟩ : Dataset) ≠
      ⟨[[1], [2]], .two [[1, 2], [3, 4]], none, false, false⟩ := by
  with_unfolding_all decide

/-- C1: whenever the caller supplies the `height` tunable and there is at
least one curve to process, `find_maximum` does not return one scalar per
curve — it raises on the unassigned local `height_flag` (the source assigns
the flag only on the height-omitted path) and leaves the dataset unchanged.
This records what the code does on the failing inputs of the claim. -/
theorem C1_find_maximum_height_kwarg_crashes (d : Dataset) (y : YData)
    (kwargs : FindMaxKwargs) (h : ℚ) (hh : kwargs.height = some h)
    (hy : 0 < yLen y) :
    Dataset.find_maximum d y kwargs = (d, .error .unboundLocal) := by
  obtain ⟨n, hn⟩ : ∃ n, yLen y = n + 1 :=
    ⟨yLen y - 1, by omega⟩
  cases hd : d.y with
  | one l0 =>
    simp [Dataset.find_maximum, hh, hd]
  | two rows0 =>
    simp only [Dataset.find_maximum, hh, hd, hn, List.range_succ_eq_map]
    rfl

/-- C1 witness: on a one-curve collection with `height = 1` supplied, the
call raises the unbound-local error and the state is unchanged. -/
theorem C1_find_maximum_height_kwarg_crashes_witness :
    Dataset.find_maximum ⟨[[1]], .two [[0, 1, 0]], none, false, false⟩
        (.two [[0, 1, 0]]) ⟨none, none, some 1⟩ =
      (⟨[[1]], .two [[0, 1, 0]], none, false, false⟩, .error .unboundLocal) :=
  C1_find_maximum_height_kwarg_crashes
    ⟨[[1]], .two [[0, 1, 0]], none, false, false⟩ (.two [[0, 1, 0]])
    ⟨none, none, some 1⟩ 1 rfl (by decide)

/-- C3: `extend_data` on a fresh dataset (neither smoothed nor
peak-extracted) with `k` new feature rows and `k` new target curves does
extend `x` and `y` in order — and then unconditionally raises the `len` of an
`int` error at the `len(targets.shape[0])` check, performing no
feature/target count validation and never raising the claimed validation
error; the mutated state is what the failed call leaves behind. -/
theorem C3_extend_data_appends_then_type_error
    (filt : List ℚ → ℕ → ℕ → List ℚ) (d : Dataset)
    (xnew rows0 rowsNew : List (List ℚ)) (hy : d.y = .two rows0)
    (hs : d.smoothed = false) (hm : d.maximum_found = false) :
    Dataset.extend_data filt d (some xnew) (some (.two rowsNew)) none =
      ({ d with x := d.x ++ xnew, y := .two (rows0 ++ rowsNew) },
        some .typeError) := by
  simp [Dataset.extend_data, hy, hs, hm, concatY]

/-- C3 witness: one new feature row and one new curve on a fresh two-curve
dataset extend `x` and `y` and end in the type error. -/
theorem C3_extend_data_appends_then_type_error_witness :
    Dataset.extend_data (fun l _ _ => l)
        ⟨[[1], [2]], .two [[1, 2], [3, 4]], none, false, false⟩
        (some [[9]]) (some (.two [[7, 8]])) none =
      (⟨[[1], [2], [9]], .two [[1, 2], [3, 4], [7, 8]], none, false, false⟩,
        some .typeError) :=
  C3_extend_data_appends_then_type_error (fun l _ _ => l)
    ⟨[[1], [2]], .two [[1, 2], [3, 4]], none, false, false⟩
    [[9]] [[1, 2], [3, 4]] [[7, 8]] rfl rfl rfl

/-- C5: whenever some curve yields no peak under the thresholds in force
(the adaptive half-of-own-maximum height, since `height` is omitted, plus
the distance and prominence settings), `find_maximum` fails with the no-peak
error — it neither skips the curve nor substitutes a default — and the
dataset is unchanged (in particular `maximum_found` stays as it was).  The
first conjunct is the per-curve statement on a collection, the second the
single-curve statement. -/
theorem C5_find_maximum_no_peak_error :
    (∀ (d : Dataset) (rows r0 : List (List ℚ)) (kwargs : FindMaxKwargs),
      d.y = .two r0 → kwargs.height = none →
      (∀ j, j < rows.length → rows.getD j [] ≠ []) →
      (∃ i, i < rows.length ∧
        findPeaks (rows.getD i []) (kwargs.distance.getD 500)
          (listMax (rows.getD i []) / 2) (kwargs.prominence.getD (1 / 40)) = []) →
      Dataset.find_maximum d (.two rows) kwargs = (d, .error .noPeakFound)) ∧
    (∀ (d : Dataset) (l l0 : List ℚ) (kwargs : FindMaxKwargs),
      d.y = .one l0 → kwargs.height = none → l ≠ [] →
      findPeaks l (kwargs.distance.getD 500) (listMax l / 2)
        (kwargs.prominence.getD (1 / 40)) = [] →
      Dataset.find_maximum d (.one l) kwargs = (d, .error .noPeakFound)) := by
  constructor
  · intro d rows r0 kwargs hd hh hne hex
    have hloop :
        fmLoop
          (fmStep (.two rows) (kwargs.distance.getD 500)
            (kwargs.prominence.getD (1 / 40)) (some true) none)
          (List.range rows.length) = .error .noPeakFound := by
      refine fmLoop_error_of _ _ ?_ ?_
      · intro i hi
        rw [fmStep_two rows _ _ _ i (hne i (List.mem_range.mp hi))]
        rcases hfp : findPeaks (rows.getD i []) (kwargs.distance.getD 500)
            (listMax (rows.getD i []) / 2) (kwargs.prominence.getD (1 / 40)) with
          _ | ⟨p, ps⟩
        · left; rfl
        · right; exact ⟨getq (rows.getD i []) p, rfl⟩
      · rcases hex with ⟨i, hi, hfp⟩
        refine ⟨i, List.mem_range.mpr hi, ?_⟩
        rw [fmStep_two rows _ _ _ i (hne i hi), hfp]
    simp only [Dataset.find_maximum, hd, hh, yLen]
    rw [hloop]
  · intro d l l0 kwargs hd hh hl hfp
    rcases l with _ | ⟨a, t⟩
    · exact absurd rfl hl
    · simp only [Dataset.find_maximum, hd, hh, if_true]
      rw [hfp]

/-- C5 witness: a collection of two flat curves fails with the no-peak error
and the dataset keeps `maximum_found = false`. -/
theorem C5_find_maximum_no_peak_error_witness :
    Dataset.find_maximum ⟨[[1], [2]], .two [[1, 1, 1], [1, 1, 1]], none, false, false⟩
        (.two [[1, 1, 1], [1, 1, 1]]) ⟨none, none, none⟩ =
      (⟨[[1], [2]], .two [[1, 1, 1], [1, 1, 1]], none, false, false⟩,
        .error .noPeakFound) :=
  C5_find_maximum_no_peak_error.1
    ⟨[[1], [2]], .two [[1, 1, 1], [1, 1, 1]], none, false, false⟩
    [[1, 1, 1], [1, 1, 1]] [[1, 1, 1], [1, 1, 1]] ⟨none, none, none⟩ rfl rfl
    (fun j hj => by
      simp only [List.length_cons, List.length_nil] at hj
      interval_cases j <;> decide)
    ⟨0, by decide, by with_unfolding_all decide⟩

/-- C6 counterexample: on a concrete 2-D input the caller's array is mutated —
after the call its contents equal the returned filtered array and differ from
the original data — refuting the claim that the input is never aliased or
mutated.  (The filter here adds 1 to every sample; window 5 is odd and above
the fixed polynomial order 3, so smoothing succeeds.) -/
theorem C6_smooth_y_mutates_2d_input :
    (Dataset.smooth_y (fun l _ _ => l.map (fun v => v + 1))
        ⟨[[1], [2]], .two [[0, 1], [2, 3]], none, false, false⟩
        (.two [[0, 1], [2, 3]]) "savgol" ⟨some 5, none⟩).2 =
      .ok (.two [[1, 2], [3, 4]], .two [[1, 2], [3, 4]]) ∧
    YData.two [[1, 2], [3, 4]] ≠ .two [[0, 1], [2, 3]] := by
  with_unfolding_all decide

/-- C6 amended: for a length-preserving filter, an odd window above the fixed
polynomial order 3, `smooth_y` returns a smoothed sequence of the same shape
as the input with every curve filtered, and sets `smoothed := true`; but the
freshness claim holds only on the 1-D path — a 1-D input is left unchanged
and a fresh array returned, while a 2-D input is filtered in place, the
caller's array ending up equal to (indeed being) the returned array. -/
theorem C6_smooth_y_amended (filt : List ℚ → ℕ → ℕ → List ℚ) (d : Dataset)
    (y : YData) (wl : ℕ) (kwpo : Option ℕ) (hodd : wl % 2 = 1) (hwl : 3 < wl)
    (hlen : ∀ l, (filt l wl 3).length = l.length) :
    ∃ after res,
      Dataset.smooth_y filt d y "savgol" ⟨some wl, kwpo⟩ =
        ({ d with smoothed := true }, .ok (after, res)) ∧
      sameShape res y ∧
      (∀ l, y = .one l → after = y ∧ res = .one (filt l wl 3)) ∧
      (∀ rows, y = .two rows →
        after = res ∧ res = .two (rows.map (fun r => filt r wl 3))) := by
  have heven : ¬ wl % 2 = 0 := by omega
  have hpo : ¬ wl ≤ 3 := by omega
  cases y with
  | one l =>
    refine ⟨.one l, .one (filt l wl 3), ?_, ?_, ?_, ?_⟩
    · simp [Dataset.smooth_y, Dataset.savgol, savgol_filter, heven, hpo]
    · simpa [sameShape] using hlen l
    · intro l2 hl2
      injection hl2 with h
      subst h
      exact ⟨rfl, rfl⟩
    · intro rows h2
      simp at h2
  | two rows =>
    refine ⟨.two (rows.map fun r => filt r wl 3),
      .two (rows.map fun r => filt r wl 3), ?_, ?_, ?_, ?_⟩
    · simp [Dataset.smooth_y, Dataset.savgol, heven,
        filterRows_ok filt wl 3 hpo rows]
    · exact ⟨by simp, fun i => getD_map_length (fun r => filt r wl 3) hlen rows i⟩
    · intro l hl
      simp at hl
    · intro rows2 h2
      injection h2 with h
      subst h
      exact ⟨rfl, rfl⟩

/-- C6 witness: with the identity filter and window 5, a concrete 2-D input
is smoothed row by row, the shape preserved, the flag set, and the in-place
behaviour of the 2-D path exhibited. -/
theorem C6_smooth_y_amended_witness :
    ∃ after res,
      Dataset.smooth_y (fun l _ _ => l) ⟨[[1]], .two [[1, 2]], none, false, false⟩
          (.two [[1, 2]]) "savgol" ⟨some 5, none⟩ =
        (⟨[[1]], .two [[1, 2]], none, true, false⟩, .ok (after, res)) ∧
      sameShape res (.two [[1, 2]]) ∧
      (∀ l, YData.two [[1, 2]] = .one l →
        after = .two [[1, 2]] ∧ res = .one l) ∧
      (∀ rows, YData.two [[1, 2]] = .two rows →
        after = res ∧ res = .two (rows.map (fun r => r))) :=
  C6_smooth_y_amended (fun l _ _ => l) ⟨[[1]], .two [[1, 2]], none, false, false⟩
    (.two [[1, 2]]) 5 none (by decide) (by decide) (fun l => rfl)

/-- C8 counterexample: with window length 2 and polynomial order 3 the order
is not below the window, yet smoothing fails with the unbound-local error of
the even-window path, not with the validation error the claim requires. -/
theorem C8_even_window_fails_without_validation_error :
    Dataset.savgol (fun l _ _ => l) (.one [1, 2, 3]) 2 3 =
      .error .unboundLocal ∧
    (Except.error PyErr.unboundLocal : Except PyErr (YData × YData)) ≠
      .error .validationError := by
  with_unfolding_all decide

/-- C8 amended: restricted to odd window lengths (even ones die earlier on
the unbound local `window`) and to inputs with at least one curve (an empty
2-D collection never reaches the filter), a polynomial order at or above the
window length always fails with the validation error. -/
theorem C8_savgol_polyorder_ge_window (filt : List ℚ → ℕ → ℕ → List ℚ)
    (y : YData) (wl po : ℕ) (hodd : wl % 2 = 1) (hpo : wl ≤ po)
    (hc : hasCurve y) :
    Dataset.savgol filt y wl po = .error .validationError := by
  have heven : ¬ wl % 2 = 0 := by omega
  cases y with
  | one l => simp [Dataset.savgol, savgol_filter, heven, hpo]
  | two rows =>
    rcases rows with _ | ⟨r, rs⟩
    · exact absurd rfl hc
    · simp [Dataset.savgol, filterRows, savgol_filter, heven, hpo]

/-- C8 witness: window 3 with polynomial order 3 on a concrete curve fails
with the validation error. -/
theorem C8_savgol_polyorder_ge_window_witness :
    Dataset.savgol (fun l _ _ => l) (.one [1, 2]) 3 3 =
      .error .validationError :=
  C8_savgol_polyorder_ge_window (fun l _ _ => l) (.one [1, 2]) 3 3
    (by decide) (by decide) trivial
